import Mathlib

/-!
Shallow embedding of the AWS EC2 VM lifecycle helpers of
`axlearn/cloud/aws/vm.py` and `axlearn/cloud/aws/utils.py`.

Python dictionaries returned by the provider are modelled as structures with
`Option` fields (`none` models an absent key); Python `dict[...]` access that
can raise `KeyError`/`IndexError` is modelled with `Except PyErr`.  The
provider (boto3/EC2) is modelled as an oracle: each iteration of the
`create_vm` retry loop consumes one `IterEnv` of provider responses, and the
security-group inventory is threaded explicitly as `ProviderState` so that
`describe_security_groups` reflects earlier `create_security_group` calls.
Every provider interaction and every sleep is recorded in an event trace.
-/

namespace AxlearnAws

/-- A Python `KeyError` or `IndexError` raised by a dict/list access. -/
inductive PyErr where
  | keyError (key : String)
  | indexError
deriving DecidableEq

/-- The `"State"` sub-dict of an EC2 instance record; `Name` may be absent. -/
structure StateDict where
  Name : Option String
deriving DecidableEq

/-- One element of a reservation's `"Instances"` list. -/
structure VmInstance where
  InstanceId : Option String
  State : Option StateDict
deriving DecidableEq

/-- A reservation record as returned inside `describe_instances()["Reservations"]`
(the `node` of `vm.py`); the `"Instances"` key may be absent. -/
structure Node where
  Instances : Option (List VmInstance)
deriving DecidableEq

/-- `get_vm_node_id` (vm.py lines 174-182): `node["Instances"][0]["InstanceId"]`,
each access raising on a missing key or empty list. -/
def get_vm_node_id (node : Node) : Except PyErr String :=
  match node.Instances with
  | none => .error (.keyError "Instances")
  | some [] => .error .indexError
  | some (i :: _) =>
    match i.InstanceId with
    | none => .error (.keyError "InstanceId")
    | some iid => .ok iid

/-- `get_vm_node_status` (vm.py lines 185-193): `node["Instances"][0]["State"]["Name"]`,
each access raising on a missing key or empty list; the raw provider string is
returned unmapped. -/
def get_vm_node_status (node : Node) : Except PyErr String :=
  match node.Instances with
  | none => .error (.keyError "Instances")
  | some [] => .error .indexError
  | some (i :: _) =>
    match i.State with
    | none => .error (.keyError "State")
    | some st =>
      match st.Name with
      | none => .error (.keyError "Name")
      | some s => .ok s

/-- `get_vm_node` (vm.py lines 281-293): with `nodes` the tag-filtered
`"Reservations"` list supplied by the provider, the code runs
`return None if not nodes else nodes.pop()`; `list.pop()` yields the LAST
element, which on a Lean list is `getLast?`. The `name` argument only feeds
the provider-side tag filter. -/
def get_vm_node (name : String) (reservations : List Node) : Option Node :=
  match reservations with
  | [] => none
  | ns => ns.getLast?

/-- `is_lower_alpha c` holds for `a`-`z`, the leading character class of the
resource-name regex. -/
def is_lower_alpha (c : Char) : Bool :=
  decide (c ≥ 'a') && decide (c ≤ 'z')

/-- Character class `[a-z0-9]` of the resource-name regex. -/
def is_lower_alnum (c : Char) : Bool :=
  is_lower_alpha c || (decide (c ≥ '0') && decide (c ≤ '9'))

/-- Character class `[-a-z0-9]` of the resource-name regex. -/
def is_name_mid (c : Char) : Bool :=
  c = '-' || is_lower_alnum c

/-- Matcher for the suffix `([-a-z0-9]*[a-z0-9])?` of the resource-name regex:
empty, or any run of `[-a-z0-9]` whose final character is `[a-z0-9]`. -/
def match_name_tail : List Char → Bool
  | [] => true
  | [c] => is_lower_alnum c
  | c :: c2 :: rest => is_name_mid c && match_name_tail (c2 :: rest)

/-- `re.fullmatch` of `^[a-z]([-a-z0-9]*[a-z0-9])?$` against a string. -/
def matches_name_pattern (s : String) : Bool :=
  match s.toList with
  | [] => false
  | c :: rest => is_lower_alpha c && match_name_tail rest

/-- `is_valid_resource_name` (utils.py lines 80-86):
`name is not None and re.fullmatch(r"^[a-z]([-a-z0-9]*[a-z0-9])?", name) is not None`. -/
def is_valid_resource_name (name : Option String) : Bool :=
  match name with
  | none => false
  | some s => matches_name_pattern s

/-- The backoff expression of vm.py line 73: `backoff_for = 2 ** min(attempt, 9)`. -/
def backoff_for (attempt : Nat) : Nat :=
  2 ^ min attempt 9

/-- A security group record: the fields of the boto3 response that vm.py reads
(`"GroupName"` and `"GroupId"`). -/
structure Group where
  GroupName : String
  GroupId : String
deriving DecidableEq

/-- The provider-side security-group inventory: `describe_security_groups`
answers from it and `create_security_group` extends it. -/
structure ProviderState where
  groups : List Group
deriving DecidableEq

/-- The names visible to `describe_security_groups()` (vm.py lines 86-88). -/
def ProviderState.groupNames (st : ProviderState) : List String :=
  st.groups.map Group.GroupName

/-- A `botocore.exceptions.ClientError`, carrying the
`response["Error"]["Code"]` and `response["Error"]["Message"]` fields that
vm.py logs before re-raising. -/
structure ClientErr where
  Code : String
  Message : String
deriving DecidableEq

/-- One element of an `IpPermission`'s `"IpRanges"` list. -/
structure IpRange where
  CidrIp : String
deriving DecidableEq

/-- One ingress rule of `authorize_security_group_ingress` (vm.py lines 102-119). -/
structure IpPermission where
  IpProtocol : String
  FromPort : Nat
  ToPort : Nat
  IpRanges : List IpRange
deriving DecidableEq

/-- The literal `IpPermissions` argument of vm.py lines 102-119: inbound TCP
port 80 from `0.0.0.0/0`, then inbound TCP port 22 from `0.0.0.0/0`. -/
def ingress_permissions : List IpPermission :=
  [ { IpProtocol := "tcp", FromPort := 80, ToPort := 80,
      IpRanges := [{ CidrIp := "0.0.0.0/0" }] },
    { IpProtocol := "tcp", FromPort := 22, ToPort := 22,
      IpRanges := [{ CidrIp := "0.0.0.0/0" }] } ]

/-- `"Ebs"` block of a block-device mapping. -/
structure Ebs where
  VolumeSize : Int
  VolumeType : String
deriving DecidableEq

/-- One `"BlockDeviceMappings"` entry. -/
structure BlockDeviceMapping where
  DeviceName : String
  Ebs : Ebs
deriving DecidableEq

/-- One `"Tags"` entry. -/
structure Tag where
  Key : String
  Value : String
deriving DecidableEq

/-- One `"TagSpecifications"` entry. -/
structure TagSpec where
  ResourceType : String
  Tags : List Tag
deriving DecidableEq

/-- The keyword arguments passed to `run_instances`, as built by `_vm_config`
(vm.py lines 246-278); `IamInstanceProfile` is its `"Name"` entry. -/
structure InstanceParams where
  ImageId : String
  InstanceType : String
  KeyName : String
  SecurityGroupIds : List String
  MinCount : Nat
  MaxCount : Nat
  BlockDeviceMappings : List BlockDeviceMapping
  TagSpecifications : List TagSpec
  IamInstanceProfile : String
deriving DecidableEq

/-- `_vm_config` (vm.py lines 246-278). -/
def _vm_config (name : String) (ami_id : String) (instance_type : String)
    (key_pair_name : String) (volume_size : Int) (iam_role_name : String)
    (security_group : Group) : InstanceParams :=
  { ImageId := ami_id
    InstanceType := instance_type
    KeyName := key_pair_name
    SecurityGroupIds := [security_group.GroupId]
    MinCount := 1
    MaxCount := 1
    BlockDeviceMappings :=
      [{ DeviceName := "/dev/sda1", Ebs := { VolumeSize := volume_size, VolumeType := "gp3" } }]
    TagSpecifications := [{ ResourceType := "instance", Tags := [{ Key := "Name", Value := name }] }]
    IamInstanceProfile := iam_role_name }

instance {ε α : Type} [DecidableEq ε] [DecidableEq α] : DecidableEq (Except ε α) := fun x y =>
  match x, y with
  | .error a, .error b =>
    if h : a = b then .isTrue (by rw [h]) else .isFalse (by simp [h])
  | .error _, .ok _ => .isFalse (by simp)
  | .ok _, .error _ => .isFalse (by simp)
  | .ok a, .ok b =>
    if h : a = b then .isTrue (by rw [h]) else .isFalse (by simp [h])

/-- Oracle responses consumed by one iteration of the `create_vm` loop:
the tag-filtered `"Reservations"` list returned by `describe_instances`, the
`"GroupId"` the provider would assign to a newly created security group, the
result of `run_instances` (either a `ClientError` or the list of
`"InstanceId"`s of the `"Instances"` field of the response), and whether
`waiter.wait` returns normally. -/
structure IterEnv where
  reservations : List Node
  createdGroupId : String
  runResult : Except ClientErr (List String)
  waiterOk : Bool
deriving DecidableEq

/-- Observable provider calls and sleeps, in program order. -/
inductive Event where
  | describeInstances (name : String)
  | describeSecurityGroups
  | describeSecurityGroupsByName (groupName : String)
  | createSecurityGroup (groupName : String)
  | authorizeIngress (groupId : String) (perms : List IpPermission)
  | runInstances (params : InstanceParams)
  | waiterWait (instanceId : String)
  | sleep (seconds : Nat)
  | printStr (s : String)
deriving DecidableEq

/-- How an invocation ends. `nameError` models reaching the backoff branch of
vm.py lines 71-80: the `logging.info` call there evaluates
`aws_settings("project")`, and `aws_settings` is not defined or imported
anywhere in vm.py, so entering the branch raises `NameError` (before any
sleep). `outOfFuel` marks the oracle running out of per-iteration responses,
i.e. the cutoff of an unboundedly long run. -/
inductive Outcome where
  | ret (instanceId : String)
  | valueError (msg : String)
  | pyError (e : PyErr)
  | clientError (e : ClientErr)
  | nameError
  | waiterError
  | systemExit
  | outOfFuel
deriving DecidableEq

/-- Result of an invocation: outcome, event trace, final provider state. -/
structure RunResult where
  outcome : Outcome
  trace : List Event
  state : ProviderState
deriving DecidableEq

/-- The `run_instances` / waiter tail of the creation attempt (vm.py lines
122-157), entered with the security group already in hand: build the params
via `_vm_config`, call `run_instances`; a `ClientError` is logged and
re-raised (the `except` clause at lines 145-155 ends in `raise err`);
otherwise extract `instances["Instances"][0]["InstanceId"]`, run the waiter,
increment `attempt` (line 144; the increment is immediately followed by the
`return`, so it is unobservable), and return the instance id. -/
def run_instance_step (name : String) (ami_id : String) (instance_type : String)
    (key_pair_name : String) (volume_size : Int) (iam_role_name : String)
    (security_group : Group) (env : IterEnv) (st : ProviderState) : RunResult :=
  let params := _vm_config name ami_id instance_type key_pair_name volume_size
    iam_role_name security_group
  match env.runResult with
  | .error err => { outcome := .clientError err, trace := [Event.runInstances params], state := st }
  | .ok ids =>
    match ids with
    | [] => { outcome := .pyError .indexError, trace := [Event.runInstances params], state := st }
    | instance_id :: _ =>
      if env.waiterOk then
        { outcome := .ret instance_id,
          trace := [Event.runInstances params, Event.waiterWait instance_id], state := st }
      else
        { outcome := .waiterError,
          trace := [Event.runInstances params, Event.waiterWait instance_id], state := st }

/-- One creation attempt (vm.py lines 71-157), taken when the VM is absent or
terminated. With `attempt` nonzero the backoff branch is entered and raises
`NameError` (see `Outcome.nameError`). Otherwise: list all security-group
names; if `"axlearn-security-group"` is among them, re-describe by that name
and take the first record; else create the group and authorize the fixed
ingress rules; then hand off to `run_instance_step`. -/
def creation_attempt (name : String) (ami_id : String) (instance_type : String)
    (key_pair_name : String) (volume_size : Int) (iam_role_name : String)
    (attempt : Nat) (env : IterEnv) (st : ProviderState) : RunResult :=
  if attempt ≠ 0 then { outcome := .nameError, trace := [], state := st }
  else if "axlearn-security-group" ∈ st.groupNames then
    match st.groups.find? (fun g => g.GroupName == "axlearn-security-group") with
    | none =>
      { outcome := .pyError .indexError,
        trace := [Event.describeSecurityGroups,
          Event.describeSecurityGroupsByName "axlearn-security-group"], state := st }
    | some security_group =>
      let r := run_instance_step name ami_id instance_type key_pair_name volume_size
        iam_role_name security_group env st
      { outcome := r.outcome,
        trace := Event.describeSecurityGroups ::
          Event.describeSecurityGroupsByName "axlearn-security-group" :: r.trace,
        state := r.state }
  else
    let security_group : Group :=
      { GroupName := "axlearn-security-group", GroupId := env.createdGroupId }
    let st2 : ProviderState := { groups := st.groups ++ [security_group] }
    let r := run_instance_step name ami_id instance_type key_pair_name volume_size
      iam_role_name security_group env st2
    { outcome := r.outcome,
      trace := Event.describeSecurityGroups ::
        Event.createSecurityGroup "axlearn-security-group" ::
        Event.authorizeIngress security_group.GroupId ingress_permissions :: r.trace,
      state := r.state }

/-- The `while True` loop of `create_vm` (vm.py lines 66-171), consuming one
`IterEnv` per iteration. Locate the node; if it is `None` or its status is
`"terminated"`, run a creation attempt (which always returns or raises);
otherwise re-read status and id (a raised `KeyError`/`IndexError` propagates),
return the id if `"running"`, else sleep 10 seconds and loop. -/
def create_vm_loop (name : String) (ami_id : String) (instance_type : String)
    (key_pair_name : String) (volume_size : Int) (iam_role_name : String)
    (attempt : Nat) (st : ProviderState) : List IterEnv → RunResult
  | [] => { outcome := .outOfFuel, trace := [], state := st }
  | env :: rest =>
    match get_vm_node name env.reservations with
    | none =>
      let r := creation_attempt name ami_id instance_type key_pair_name volume_size
        iam_role_name attempt env st
      { outcome := r.outcome, trace := Event.describeInstances name :: r.trace,
        state := r.state }
    | some node =>
      match get_vm_node_status node with
      | .error e =>
        { outcome := .pyError e, trace := [Event.describeInstances name], state := st }
      | .ok status =>
        if status = "terminated" then
          let r := creation_attempt name ami_id instance_type key_pair_name volume_size
            iam_role_name attempt env st
          { outcome := r.outcome, trace := Event.describeInstances name :: r.trace,
            state := r.state }
        else
          match get_vm_node_id node with
          | .error e =>
            { outcome := .pyError e, trace := [Event.describeInstances name], state := st }
          | .ok vm_id =>
            if status = "running" then
              { outcome := .ret vm_id, trace := [Event.describeInstances name], state := st }
            else
              let r := create_vm_loop name ami_id instance_type key_pair_name
                volume_size iam_role_name attempt st rest
              { outcome := r.outcome,
                trace := Event.describeInstances name :: Event.sleep 10 :: r.trace,
                state := r.state }

/-- The keyword arguments of `create_vm` (vm.py lines 33-44). `region`,
`bundler_type` and `metadata` are accepted but never used by the body
(`_vm_config` takes no metadata). -/
structure VmArgs where
  name : String
  region : String
  ami_id : String
  instance_type : String
  key_pair_name : String
  volume_size : Int
  iam_role_name : String
  bundler_type : String
  metadata : Option (List (String × String))
deriving DecidableEq

/-- `create_vm` (vm.py lines 33-171): validate the name (raising `ValueError`
before any provider call on failure), then enter the retry loop with
`attempt = 0`. -/
def create_vm (a : VmArgs) (envs : List IterEnv) (st : ProviderState) : RunResult :=
  if is_valid_resource_name (some a.name) then
    create_vm_loop a.name a.ami_id a.instance_type a.key_pair_name a.volume_size
      a.iam_role_name 0 st envs
  else
    { outcome := .valueError (a.name ++ " is not a valid resource name."),
      trace := [], state := st }

/-- `delete_vm` (vm.py lines 196-235): the body begins with `print("delete")`
followed by an unconditional `exit()`, so every call raises `SystemExit`
immediately; the locate/delete/poll code below line 206 is unreachable (it
also references the undefined names `resource` and `errors`). -/
def delete_vm (name : String) (st : ProviderState) : RunResult :=
  { outcome := .systemExit, trace := [Event.printStr "delete"], state := st }

/-- Sequential invocations of `create_vm`, threading the provider state and
concatenating the traces. -/
def run_seq : List (VmArgs × List IterEnv) → ProviderState → List Event × ProviderState
  | [], st => ([], st)
  | (a, envs) :: rest, st =>
    let r := create_vm a envs st
    let (tr, st2) := run_seq rest r.state
    (r.trace ++ tr, st2)

/-- `true` on events that are calls into the provider API (not local prints
or sleeps). -/
@[simp] def Event.isProviderCall : Event → Bool
  | .describeInstances _ => true
  | .describeSecurityGroups => true
  | .describeSecurityGroupsByName _ => true
  | .createSecurityGroup _ => true
  | .authorizeIngress _ _ => true
  | .runInstances _ => true
  | .waiterWait _ => true
  | .sleep _ => false
  | .printStr _ => false

/-- Count of `create_security_group` calls for a given group name. -/
def countCreatesSG (n : String) (tr : List Event) : Nat :=
  tr.countP (fun e => match e with
    | .createSecurityGroup m => m == n
    | _ => false)

/-- Is this event an `authorize_security_group_ingress` call? -/
@[simp] def Event.isAuthorizeEvt : Event → Bool
  | .authorizeIngress _ _ => true
  | _ => false

/-- Is this event a `run_instances` call? -/
@[simp] def Event.isRunEvt : Event → Bool
  | .runInstances _ => true
  | _ => false

/-- Count of `authorize_security_group_ingress` calls. -/
def countAuthorizes (tr : List Event) : Nat :=
  tr.countP Event.isAuthorizeEvt

/-- Count of `run_instances` (instance-creation) calls. -/
def countRunInstances (tr : List Event) : Nat :=
  tr.countP Event.isRunEvt

/-- Does an outcome model a raised `ValueError` (invalid resource name)? -/
def Outcome.isValueError : Outcome → Bool
  | .valueError _ => true
  | _ => false

/-- Does an outcome model the `NameError` raised from the backoff branch? -/
def Outcome.isNameError : Outcome → Bool
  | .nameError => true
  | _ => false

/-- Holds of an event unless it is a sleep of other than the 10-second poll
interval; an exponential-backoff sleep would falsify it. -/
@[simp] def sleep_is_ten : Event → Bool
  | .sleep s => s == 10
  | _ => true

/-- Holds of an event unless it is an ingress authorization with rules other
than the fixed `ingress_permissions`. -/
@[simp] def authorize_rules_fixed : Event → Bool
  | .authorizeIngress _ perms => perms == ingress_permissions
  | _ => true

/-- The ingress rules as the spec words them: allow TCP port 22 and TCP
port 80 from all addresses (CIDR `0.0.0.0/0`). -/
def spec_ingress_rules : List IpPermission :=
  [ { IpProtocol := "tcp", FromPort := 22, ToPort := 22,
      IpRanges := [{ CidrIp := "0.0.0.0/0" }] },
    { IpProtocol := "tcp", FromPort := 80, ToPort := 80,
      IpRanges := [{ CidrIp := "0.0.0.0/0" }] } ]

/-- A concrete, well-formed argument record for `create_vm`. -/
def ex_args : VmArgs :=
  ⟨"my-vm-1", "us-east-1", "ami-1", "t2.micro", "kp", 100, "role", "docker", none⟩

/-- A concrete transient `ClientError` as the provider would raise it. -/
def ex_err : ClientErr := ⟨"RequestLimitExceeded", "Request limit exceeded."⟩

/-- Provider responses: no instance exists and `run_instances` raises `ex_err`. -/
def ex_env_client_error : IterEnv := ⟨[], "sg-1", .error ex_err, true⟩

/-- Provider responses: no instance exists and `run_instances` succeeds. -/
def ex_env_create_ok : IterEnv := ⟨[], "sg-1", .ok ["i-123"], true⟩

/-- A well-formed reservation whose single instance is `running`. -/
def ex_running_node : Node := ⟨some [⟨some "i-123", some ⟨some "running"⟩⟩]⟩

/-- Provider responses: the tag filter finds `ex_running_node`. -/
def ex_env_running : IterEnv := ⟨[ex_running_node], "sg-1", .ok ["i-999"], true⟩

/-- A reservation whose single instance is `i-a`, running. -/
def ex_node_a : Node := ⟨some [⟨some "i-a", some ⟨some "running"⟩⟩]⟩

/-- A reservation whose single instance is `i-b`, running. -/
def ex_node_b : Node := ⟨some [⟨some "i-b", some ⟨some "running"⟩⟩]⟩

/-- The security group as created with the oracle id `sg-1`. -/
def ex_group : Group := ⟨"axlearn-security-group", "sg-1"⟩

lemma run_instance_step_shape (name ami_id instance_type key_pair_name : String)
    (volume_size : Int) (iam_role_name : String) (security_group : Group)
    (env : IterEnv) (st : ProviderState) :
    (run_instance_step name ami_id instance_type key_pair_name volume_size
        iam_role_name security_group env st).state = st ∧
    (∀ n, countCreatesSG n (run_instance_step name ami_id instance_type key_pair_name
        volume_size iam_role_name security_group env st).trace = 0) ∧
    countAuthorizes (run_instance_step name ami_id instance_type key_pair_name
        volume_size iam_role_name security_group env st).trace = 0 ∧
    (run_instance_step name ami_id instance_type key_pair_name volume_size
        iam_role_name security_group env st).trace.all sleep_is_ten = true ∧
    (run_instance_step name ami_id instance_type key_pair_name volume_size
        iam_role_name security_group env st).trace.all authorize_rules_fixed = true ∧
    (run_instance_step name ami_id instance_type key_pair_name volume_size
        iam_role_name security_group env st).outcome.isValueError = false ∧
    (run_instance_step name ami_id instance_type key_pair_name volume_size
        iam_role_name security_group env st).outcome.isNameError = false := by
  unfold run_instance_step
  cases hr : env.runResult with
  | error err =>
    simp [hr, countCreatesSG, countAuthorizes, Event.isAuthorizeEvt, sleep_is_ten,
      authorize_rules_fixed, Outcome.isValueError, Outcome.isNameError]
  | ok ids =>
    cases ids with
    | nil =>
      simp [hr, countCreatesSG, countAuthorizes, Event.isAuthorizeEvt, sleep_is_ten,
        authorize_rules_fixed, Outcome.isValueError, Outcome.isNameError]
    | cons iid rest =>
      cases hw : env.waiterOk <;>
        simp [hr, hw, countCreatesSG, countAuthorizes, Event.isAuthorizeEvt, sleep_is_ten,
          authorize_rules_fixed, Outcome.isValueError, Outcome.isNameError]

@[simp] lemma countCreatesSG_nil (n : String) : countCreatesSG n [] = 0 := rfl

@[simp] lemma countCreatesSG_cons (n : String) (e : Event) (tr : List Event) :
    countCreatesSG n (e :: tr) =
      (if e = Event.createSecurityGroup n then 1 else 0) + countCreatesSG n tr := by
  cases e <;> simp [countCreatesSG, List.countP_cons, beq_iff_eq, Nat.add_comm]

@[simp] lemma countAuthorizes_nil : countAuthorizes [] = 0 := rfl

@[simp] lemma countAuthorizes_cons (e : Event) (tr : List Event) :
    countAuthorizes (e :: tr) =
      (if e.isAuthorizeEvt then 1 else 0) + countAuthorizes tr := by
  cases e <;> simp [countAuthorizes, Event.isAuthorizeEvt, List.countP_cons, Nat.add_comm]

@[simp] lemma countRunInstances_nil : countRunInstances [] = 0 := rfl

@[simp] lemma countRunInstances_cons (e : Event) (tr : List Event) :
    countRunInstances (e :: tr) =
      (if e.isRunEvt then 1 else 0) + countRunInstances tr := by
  cases e <;> simp [countRunInstances, Event.isRunEvt, List.countP_cons, Nat.add_comm]

lemma creation_attempt_shape (name ami_id instance_type key_pair_name : String)
    (volume_size : Int) (iam_role_name : String) (env : IterEnv) (st : ProviderState) :
    (creation_attempt name ami_id instance_type key_pair_name volume_size
        iam_role_name 0 env st).outcome.isValueError = false ∧
    (creation_attempt name ami_id instance_type key_pair_name volume_size
        iam_role_name 0 env st).outcome.isNameError = false ∧
    (creation_attempt name ami_id instance_type key_pair_name volume_size
        iam_role_name 0 env st).trace.all sleep_is_ten = true ∧
    (creation_attempt name ami_id instance_type key_pair_name volume_size
        iam_role_name 0 env st).trace.all authorize_rules_fixed = true ∧
    countAuthorizes (creation_attempt name ami_id instance_type key_pair_name
        volume_size iam_role_name 0 env st).trace =
      countCreatesSG "axlearn-security-group" (creation_attempt name ami_id instance_type
        key_pair_name volume_size iam_role_name 0 env st).trace ∧
    (∀ n, countCreatesSG n (creation_attempt name ami_id instance_type key_pair_name
        volume_size iam_role_name 0 env st).trace ≤ 1) ∧
    (∀ n, n ∈ st.groupNames → countCreatesSG n (creation_attempt name ami_id instance_type
        key_pair_name volume_size iam_role_name 0 env st).trace = 0) ∧
    (∀ n, 1 ≤ countCreatesSG n (creation_attempt name ami_id instance_type key_pair_name
        volume_size iam_role_name 0 env st).trace →
      n ∈ (creation_attempt name ami_id instance_type key_pair_name volume_size
        iam_role_name 0 env st).state.groupNames) ∧
    st.groupNames ⊆ (creation_attempt name ami_id instance_type key_pair_name
        volume_size iam_role_name 0 env st).state.groupNames := by
  unfold creation_attempt
  rw [if_neg (by omega : ¬ (0 : Nat) ≠ 0)]
  by_cases hmem : "axlearn-security-group" ∈ st.groupNames
  · rw [if_pos hmem]
    cases hf : st.groups.find? (fun g => g.GroupName == "axlearn-security-group") with
    | none =>
      simp [sleep_is_ten, authorize_rules_fixed, Outcome.isValueError, Outcome.isNameError,
        List.Subset.refl]
    | some g =>
      obtain ⟨hst2, hcre2, haut2, hslp2, harf2, hv2, hn2⟩ := run_instance_step_shape name
        ami_id instance_type key_pair_name volume_size iam_role_name g env st
      refine ⟨hv2, hn2, ?_, ?_, ?_, ?_, ?_, ?_, ?_⟩
      · simp [sleep_is_ten, hslp2]
      · simp [authorize_rules_fixed, harf2]
      · simp [haut2, hcre2]
      · intro n
        simp [hcre2 n]
      · intro n _
        simp [hcre2 n]
      · intro n hn
        simp [hcre2 n] at hn
      · simp [hst2]
  · rw [if_neg hmem]
    obtain ⟨hst2, hcre2, haut2, hslp2, harf2, hv2, hn2⟩ := run_instance_step_shape name
      ami_id instance_type key_pair_name volume_size iam_role_name
      ⟨"axlearn-security-group", env.createdGroupId⟩ env
      ⟨st.groups ++ [⟨"axlearn-security-group", env.createdGroupId⟩]⟩
    refine ⟨hv2, hn2, ?_, ?_, ?_, ?_, ?_, ?_, ?_⟩
    · simp [sleep_is_ten, hslp2]
    · simp [authorize_rules_fixed, harf2]
    · simp [haut2, hcre2]
    · intro n
      by_cases he : Event.createSecurityGroup "axlearn-security-group" =
          Event.createSecurityGroup n <;>
        simp [he, hcre2 n]
    · intro n hnmem
      have hne : Event.createSecurityGroup "axlearn-security-group" ≠
          Event.createSecurityGroup n := by
        intro he
        simp at he
        exact hmem (he ▸ hnmem)
      simp [hne, hcre2 n]
    · intro n hn
      simp [hcre2 n] at hn
      have hax : ("axlearn-security-group" : String) = n := by
        by_contra h
        simp [h] at hn
      rw [hst2]
      subst hax
      show _ ∈ ProviderState.groupNames _
      unfold ProviderState.groupNames
      rw [List.map_append]
      exact List.mem_append_right _ (by simp)
    · intro n hn
      rw [hst2]
      show _ ∈ ProviderState.groupNames _
      unfold ProviderState.groupNames
      rw [List.map_append]
      exact List.mem_append_left _ hn

lemma create_vm_loop_shape (name ami_id instance_type key_pair_name : String)
    (volume_size : Int) (iam_role_name : String) (envs : List IterEnv)
    (st : ProviderState) :
    (create_vm_loop name ami_id instance_type key_pair_name volume_size
        iam_role_name 0 st envs).outcome.isValueError = false ∧
    (create_vm_loop name ami_id instance_type key_pair_name volume_size
        iam_role_name 0 st envs).outcome.isNameError = false ∧
    (create_vm_loop name ami_id instance_type key_pair_name volume_size
        iam_role_name 0 st envs).trace.all sleep_is_ten = true ∧
    (create_vm_loop name ami_id instance_type key_pair_name volume_size
        iam_role_name 0 st envs).trace.all authorize_rules_fixed = true ∧
    countAuthorizes (create_vm_loop name ami_id instance_type key_pair_name
        volume_size iam_role_name 0 st envs).trace =
      countCreatesSG "axlearn-security-group" (create_vm_loop name ami_id instance_type
        key_pair_name volume_size iam_role_name 0 st envs).trace ∧
    (∀ n, countCreatesSG n (create_vm_loop name ami_id instance_type key_pair_name
        volume_size iam_role_name 0 st envs).trace ≤ 1) ∧
    (∀ n, n ∈ st.groupNames → countCreatesSG n (create_vm_loop name ami_id instance_type
        key_pair_name volume_size iam_role_name 0 st envs).trace = 0) ∧
    (∀ n, 1 ≤ countCreatesSG n (create_vm_loop name ami_id instance_type key_pair_name
        volume_size iam_role_name 0 st envs).trace →
      n ∈ (create_vm_loop name ami_id instance_type key_pair_name volume_size
        iam_role_name 0 st envs).state.groupNames) ∧
    st.groupNames ⊆ (create_vm_loop name ami_id instance_type key_pair_name
        volume_size iam_role_name 0 st envs).state.groupNames := by
  induction envs generalizing st with
  | nil =>
    simp [create_vm_loop, Outcome.isValueError, Outcome.isNameError, List.Subset.refl]
  | cons env rest ih =>
    unfold create_vm_loop
    split
    · obtain ⟨cv, cn, cs, ca, ceq, cle, cmem0, cmem1, csub⟩ := creation_attempt_shape
        name ami_id instance_type key_pair_name volume_size iam_role_name env st
      exact ⟨cv, cn, by simp [cs], by simp [ca], by simp [ceq],
        fun n => by simp [cle n], fun n hn => by simp [cmem0 n hn],
        fun n hn => by simpa using cmem1 n (by simpa using hn), by simpa using csub⟩
    · split
      · simp [Outcome.isValueError, Outcome.isNameError, List.Subset.refl]
      · split
        · obtain ⟨cv, cn, cs, ca, ceq, cle, cmem0, cmem1, csub⟩ := creation_attempt_shape
            name ami_id instance_type key_pair_name volume_size iam_role_name env st
          exact ⟨cv, cn, by simp [cs], by simp [ca], by simp [ceq],
            fun n => by simp [cle n], fun n hn => by simp [cmem0 n hn],
            fun n hn => by simpa using cmem1 n (by simpa using hn), by simpa using csub⟩
        · split
          · simp [Outcome.isValueError, Outcome.isNameError, List.Subset.refl]
          · split
            · simp [Outcome.isValueError, Outcome.isNameError, List.Subset.refl]
            · obtain ⟨cv, cn, cs, ca, ceq, cle, cmem0, cmem1, csub⟩ := ih st
              exact ⟨cv, cn, by simp [cs], by simp [ca], by simp [ceq],
                fun n => by simp [cle n], fun n hn => by simp [cmem0 n hn],
                fun n hn => by simpa using cmem1 n (by simpa using hn), by simpa using csub⟩


@[simp] lemma countCreatesSG_append (n : String) (t1 t2 : List Event) :
    countCreatesSG n (t1 ++ t2) = countCreatesSG n t1 + countCreatesSG n t2 := by
  simp [countCreatesSG, List.countP_append]

@[simp] lemma countAuthorizes_append (t1 t2 : List Event) :
    countAuthorizes (t1 ++ t2) = countAuthorizes t1 + countAuthorizes t2 := by
  simp [countAuthorizes, List.countP_append]

@[simp] lemma countRunInstances_append (t1 t2 : List Event) :
    countRunInstances (t1 ++ t2) = countRunInstances t1 + countRunInstances t2 := by
  simp [countRunInstances, List.countP_append]

lemma create_vm_shape (a : VmArgs) (envs : List IterEnv) (st : ProviderState) :
    (create_vm a envs st).outcome.isNameError = false ∧
    (create_vm a envs st).trace.all sleep_is_ten = true ∧
    (create_vm a envs st).trace.all authorize_rules_fixed = true ∧
    countAuthorizes (create_vm a envs st).trace =
      countCreatesSG "axlearn-security-group" (create_vm a envs st).trace ∧
    (∀ n, countCreatesSG n (create_vm a envs st).trace ≤ 1) ∧
    (∀ n, n ∈ st.groupNames → countCreatesSG n (create_vm a envs st).trace = 0) ∧
    (∀ n, 1 ≤ countCreatesSG n (create_vm a envs st).trace →
      n ∈ (create_vm a envs st).state.groupNames) ∧
    st.groupNames ⊆ (create_vm a envs st).state.groupNames := by
  unfold create_vm
  split
  · obtain ⟨-, cn, cs, ca, ceq, cle, cmem0, cmem1, csub⟩ := create_vm_loop_shape
      a.name a.ami_id a.instance_type a.key_pair_name a.volume_size a.iam_role_name envs st
    exact ⟨cn, cs, ca, ceq, cle, cmem0, cmem1, csub⟩
  · simp [Outcome.isNameError, List.Subset.refl]

@[simp] lemma run_seq_nil (st : ProviderState) : run_seq [] st = ([], st) := rfl

lemma run_seq_cons (a : VmArgs) (envs : List IterEnv)
    (rest : List (VmArgs × List IterEnv)) (st : ProviderState) :
    run_seq ((a, envs) :: rest) st =
      ((create_vm a envs st).trace ++ (run_seq rest (create_vm a envs st).state).1,
        (run_seq rest (create_vm a envs st).state).2) := rfl

lemma run_seq_sg (invs : List (VmArgs × List IterEnv)) (st : ProviderState) (n : String) :
    st.groupNames ⊆ (run_seq invs st).2.groupNames ∧
    countCreatesSG n (run_seq invs st).1 ≤ 1 ∧
    (n ∈ st.groupNames → countCreatesSG n (run_seq invs st).1 = 0) ∧
    (1 ≤ countCreatesSG n (run_seq invs st).1 → n ∈ (run_seq invs st).2.groupNames) := by
  induction invs generalizing st with
  | nil =>
    simp [List.Subset.refl]
  | cons inv rest ih =>
    obtain ⟨a, envs⟩ := inv
    rw [run_seq_cons]
    obtain ⟨-, -, -, -, cle, cmem0, cmem1, csub⟩ := create_vm_shape a envs st
    obtain ⟨isub, ile, imem0, imem1⟩ := ih (create_vm a envs st).state
    refine ⟨csub.trans isub, ?_, ?_, ?_⟩
    · simp only [countCreatesSG_append]
      by_cases h1 : 1 ≤ countCreatesSG n (create_vm a envs st).trace
      · have hmem := cmem1 n h1
        have hz := imem0 hmem
        have := cle n
        omega
      · have := ile
        omega
    · intro hmem
      simp only [countCreatesSG_append]
      have h1 := cmem0 n hmem
      have h2 := imem0 (csub hmem)
      omega
    · intro h
      simp only [countCreatesSG_append] at h
      by_cases h1 : 1 ≤ countCreatesSG n (create_vm a envs st).trace
      · exact isub (cmem1 n h1)
      · exact imem1 (by omega)

/-- Claim C5: for every attempt number, the backoff value computed at vm.py
line 73 (`2 ** min(attempt, 9)`) equals `min(2^attempt, 512)`, and the backoff
sequence for attempts 0..10 is exactly `[1,2,4,8,16,32,64,128,256,512,512]`. -/
theorem backoff_sequence_correct :
    (∀ attempt, backoff_for attempt = min (2 ^ attempt) 512) ∧
    (List.range 11).map backoff_for = [1, 2, 4, 8, 16, 32, 64, 128, 256, 512, 512] := by
  constructor
  · intro a
    unfold backoff_for
    by_cases h : a ≤ 9
    · have h2 : 2 ^ a ≤ 512 := by
        calc 2 ^ a ≤ 2 ^ 9 := Nat.pow_le_pow_right (by omega) h
        _ = 512 := by norm_num
      rw [Nat.min_eq_left h, Nat.min_eq_left h2]
    · have h9 : 9 ≤ a := by omega
      have h2 : 512 ≤ 2 ^ a := by
        calc (512 : Nat) = 2 ^ 9 := by norm_num
        _ ≤ 2 ^ a := Nat.pow_le_pow_right (by omega) h9
      rw [Nat.min_eq_right h9, Nat.min_eq_right h2]
      norm_num
  · decide

/-- Claim C7: across any sequence of `create_vm` invocations threading the
provider state, `create_security_group` is called at most once per group name,
and never for a name whose group already exists (describe-before-create). -/
theorem security_group_create_at_most_once (n : String)
    (invs : List (VmArgs × List IterEnv)) (st : ProviderState) :
    countCreatesSG n (run_seq invs st).1 ≤ if n ∈ st.groupNames then 0 else 1 := by
  obtain ⟨-, hle, hmem0, -⟩ := run_seq_sg invs st n
  by_cases h : n ∈ st.groupNames
  · simp [h, hmem0 h]
  · simpa [h] using hle

/-- Claim C8: every ingress authorization in any `create_vm` run carries
exactly the fixed rule set (TCP 22 and TCP 80 from 0.0.0.0/0, as
`spec_ingress_rules` states it), and authorizations happen exactly as often
as group creations — never when an existing group is reused. -/
theorem ingress_rules_fixed_and_create_only (a : VmArgs) (envs : List IterEnv)
    (st : ProviderState) :
    (create_vm a envs st).trace.all authorize_rules_fixed = true ∧
    countAuthorizes (create_vm a envs st).trace =
      countCreatesSG "axlearn-security-group" (create_vm a envs st).trace ∧
    ingress_permissions.Perm spec_ingress_rules := by
  obtain ⟨-, -, ca, ceq, -, -, -, -⟩ := create_vm_shape a envs st
  exact ⟨ca, ceq, by decide⟩

/-- Claim C9: on every run of `create_vm` the backoff branch of vm.py lines
71-80 is never executed: the attempt counter is only incremented immediately
before the successful return, so the `if attempt:` guard never fires — the
run neither raises the branch's latent `NameError` nor performs any sleep
other than the 10-second poll sleep. -/
theorem backoff_branch_unreachable (a : VmArgs) (envs : List IterEnv)
    (st : ProviderState) :
    (create_vm a envs st).outcome.isNameError = false ∧
    (create_vm a envs st).trace.all sleep_is_ten = true := by
  obtain ⟨cn, cs, -, -, -, -, -, -⟩ := create_vm_shape a envs st
  exact ⟨cn, cs⟩

/-- Claim C10: `delete_vm` prints `delete` and raises `SystemExit` before any
locate, provider call, or deletion, for every name; provider state is
unchanged and no `VMDeletionError` can be raised. -/
theorem delete_vm_exits_before_any_call (name : String) (st : ProviderState) :
    delete_vm name st =
      { outcome := .systemExit, trace := [Event.printStr "delete"], state := st } ∧
    (delete_vm name st).trace.all (fun e => !e.isProviderCall) = true :=
  ⟨rfl, rfl⟩

/-- Claim C2 (counterexample): on a node with the `Instances` key absent,
`get_vm_node_status` raises a `KeyError` instead of returning `UNKNOWN`, so
the status mapper is not total and does not map to a five-value enum. -/
theorem get_vm_node_status_raises_on_missing_key :
    get_vm_node_status { Instances := none } = Except.error (PyErr.keyError "Instances") :=
  rfl

/-- Claim C2 (amended): `get_vm_node_status` returns precisely the raw
provider string stored at `Instances[0].State.Name` when that path exists,
and raises a `KeyError`/`IndexError` otherwise; no value is ever mapped to an
enum or defaulted to `UNKNOWN`. -/
theorem get_vm_node_status_characterized (node : Node) (s : String) :
    get_vm_node_status node = Except.ok s ↔
      ∃ i rest stDict, node.Instances = some (i :: rest) ∧ i.State = some stDict ∧
        stDict.Name = some s := by
  obtain ⟨instances⟩ := node
  cases instances with
  | none => simp [get_vm_node_status]
  | some l =>
    cases l with
    | nil => simp [get_vm_node_status]
    | cons i r =>
      cases hS : i.State with
      | none => simp [get_vm_node_status, hS]
      | some sd =>
        cases hN : sd.Name with
        | none => simp [get_vm_node_status, hS, hN]
        | some v => simp [get_vm_node_status, hS, hN]

/-- Claim C3 (counterexample): with two distinct matching reservations, the
locator returns the second (last) one, not the first. -/
theorem get_vm_node_not_first_match :
    get_vm_node "my-vm-1" [ex_node_a, ex_node_b] = some ex_node_b ∧
    ex_node_b ≠ ex_node_a := by
  exact ⟨rfl, by decide⟩

/-- Claim C3 (amended): `get_vm_node` returns `None` when the tag-filtered
describe call yields no records, and otherwise the LAST element of the
returned list (`nodes.pop()`); it performs no provider mutation. -/
theorem get_vm_node_characterized (name : String) (reservations : List Node)
    (node : Node) :
    get_vm_node name [] = none ∧
    (get_vm_node name reservations = some node ↔
      ∃ pre, reservations = pre ++ [node]) := by
  refine ⟨rfl, ?_⟩
  cases reservations with
  | nil => simp [get_vm_node]
  | cons x xs => simpa [get_vm_node] using List.getLast?_eq_some_iff

/-- Claim C4: names matching `^[a-z]([-a-z0-9]*[a-z0-9])?$` never trigger the
invalid-name `ValueError`; all other names always trigger it, before any
provider call is made (empty trace, untouched state). -/
theorem create_vm_name_validation (a : VmArgs) (envs : List IterEnv)
    (st : ProviderState) :
    if matches_name_pattern a.name = true then
      (create_vm a envs st).outcome.isValueError = false
    else
      create_vm a envs st =
        { outcome := .valueError (a.name ++ " is not a valid resource name."),
          trace := [], state := st } := by
  by_cases h : matches_name_pattern a.name = true
  · rw [if_pos h]
    unfold create_vm
    rw [if_pos (show is_valid_resource_name (some a.name) = true from h)]
    exact (create_vm_loop_shape a.name a.ami_id a.instance_type a.key_pair_name
      a.volume_size a.iam_role_name envs st).1
  · rw [if_neg h]
    unfold create_vm
    rw [if_neg (show ¬ is_valid_resource_name (some a.name) = true from h)]

lemma create_vm_ret_running (a : VmArgs) (env : IterEnv) (rest : List IterEnv)
    (st : ProviderState) (node : Node) (vm_id : String)
    (hname : matches_name_pattern a.name = true)
    (hlast : env.reservations.getLast? = some node)
    (hstatus : get_vm_node_status node = Except.ok "running")
    (hid : get_vm_node_id node = Except.ok vm_id) :
    create_vm a (env :: rest) st =
      { outcome := .ret vm_id, trace := [Event.describeInstances a.name], state := st } := by
  have hng : get_vm_node a.name env.reservations = some node := by
    cases hres : env.reservations with
    | nil => rw [hres] at hlast; simp at hlast
    | cons x xs =>
      rw [hres] at hlast
      simpa [get_vm_node] using hlast
  unfold create_vm
  rw [if_pos (show is_valid_resource_name (some a.name) = true from hname)]
  unfold create_vm_loop
  rw [hng]
  simp [hstatus, hid]

/-- Claim C6: when the instance already exists and its observed state is
`running`, two `create_vm` calls with the same spec both return the observed
instance id, perform zero `run_instances` (creation) calls, and leave the
provider state unchanged. -/
theorem create_vm_idempotent_when_running (a : VmArgs) (env : IterEnv)
    (envs1 envs2 : List IterEnv) (st : ProviderState) (node : Node) (vm_id : String)
    (hname : matches_name_pattern a.name = true)
    (hlast : env.reservations.getLast? = some node)
    (hstatus : get_vm_node_status node = Except.ok "running")
    (hid : get_vm_node_id node = Except.ok vm_id) :
    (create_vm a (env :: envs1) st).outcome = .ret vm_id ∧
    (create_vm a (env :: envs2) (create_vm a (env :: envs1) st).state).outcome =
      .ret vm_id ∧
    countRunInstances (create_vm a (env :: envs1) st).trace = 0 ∧
    countRunInstances (create_vm a (env :: envs2)
      (create_vm a (env :: envs1) st).state).trace = 0 ∧
    (create_vm a (env :: envs1) st).state = st := by
  have h1 := create_vm_ret_running a env envs1 st node vm_id hname hlast hstatus hid
  have h2 := create_vm_ret_running a env envs2 st node vm_id hname hlast hstatus hid
  rw [h1]
  simp [h2]

/-- Claim C6 (witness): the idempotence theorem instantiated at a concrete
provider snapshot whose instance `i-123` is already running. -/
theorem create_vm_idempotent_witness :
    matches_name_pattern "my-vm-1" = true ∧
    ex_env_running.reservations.getLast? = some ex_running_node ∧
    get_vm_node_status ex_running_node = Except.ok "running" ∧
    get_vm_node_id ex_running_node = Except.ok "i-123" ∧
    ((create_vm ex_args (ex_env_running :: []) ⟨[]⟩).outcome = .ret "i-123" ∧
      (create_vm ex_args (ex_env_running :: [])
        (create_vm ex_args (ex_env_running :: []) ⟨[]⟩).state).outcome = .ret "i-123" ∧
      countRunInstances (create_vm ex_args (ex_env_running :: []) ⟨[]⟩).trace = 0 ∧
      countRunInstances (create_vm ex_args (ex_env_running :: [])
        (create_vm ex_args (ex_env_running :: []) ⟨[]⟩).state).trace = 0 ∧
      (create_vm ex_args (ex_env_running :: []) ⟨[]⟩).state = ⟨[]⟩) :=
  ⟨rfl, rfl, rfl, rfl,
    create_vm_idempotent_when_running ex_args ex_env_running [] [] ⟨[]⟩
      ex_running_node "i-123" rfl rfl rfl rfl⟩

/-- Claim C1 (code behavior at the failing input): when no instance exists
and the provider's `run_instances` raises a transient `ClientError`,
`create_vm` re-raises the error immediately — a single creation call, no
backoff sleep, no retry — even though the oracle offers two further
iterations in which creation would have succeeded. -/
theorem create_vm_propagates_client_error :
    create_vm ex_args [ex_env_client_error, ex_env_create_ok, ex_env_create_ok] ⟨[]⟩ =
      { outcome := .clientError ex_err,
        trace := [Event.describeInstances "my-vm-1", Event.describeSecurityGroups,
          Event.createSecurityGroup "axlearn-security-group",
          Event.authorizeIngress "sg-1" ingress_permissions,
          Event.runInstances (_vm_config "my-vm-1" "ami-1" "t2.micro" "kp" 100 "role"
            ex_group)],
        state := ⟨[ex_group]⟩ } ∧
    countRunInstances (create_vm ex_args
      [ex_env_client_error, ex_env_create_ok, ex_env_create_ok] ⟨[]⟩).trace = 1 :=
  ⟨rfl, rfl⟩

end AxlearnAws
